import Mathlib

/-!
Verification of the search-and-filter engine of `geoguessr-map-maker` against its
natural-language specification.

The Python sources are shallowly embedded:

* pure functions become Lean functions over explicit records;
* the network (the `streetlevel` imagery-provider client and `aiohttp` session) is
  modelled by passing lookup outcomes as explicit arguments, so every embedded
  function is a total, executable Lean definition;
* Python floats are modelled as rationals (`ℚ`);
* a Python value that may be `None` becomes an `Option`;
* the lazy metadata upgrade (`ensure_full_pano`, invoked by the predicates in
  `pano.py` when a field is missing) is modelled separately; the predicates are
  evaluated on the record that already carries the fields they read, which is
  what the re-fetch produces.

Where a definition collapses a Python detail (for example a list that can also be
`None`), the doc comment of the definition states the collapse.
-/

/-! ## Data model (`pano.py`, `pano_finder.py`) -/

/-- Tri-state filter behaviour, from `pano_finder.PredicateOption`. -/
inductive PredicateOption where
  | Ignore
  | Require
  | Reject
  deriving DecidableEq, Repr

/-- One street-name label attached to a panorama, with the angles of the road
directions that carry that label.  Only the number of angles is ever read. -/
structure StreetName where
  name : String
  angles : List ℚ
  deriving DecidableEq, Repr

/-- One entry of `image_sizes`: a zoom level resolution in pixels. -/
structure ImageSize where
  x : Nat
  y : Nat
  deriving DecidableEq, Repr

/-- The fields of `streetlevel.streetview.StreetViewPanorama` that the embedded
code reads.  `places` is `none` when the provider returned no place data at all
and `some l` when it returned the list `l` of place-type strings
(`place.type.value` in the source); `street_names` collapses Python `None` to the
empty list, which the source treats identically; `links` holds the ids of the
neighbouring panoramas. -/
structure StreetViewPanorama where
  id : String
  lat : ℚ
  lng : ℚ
  is_third_party : Bool
  source : String
  street_names : List StreetName
  places : Option (List String)
  links : List String
  image_sizes : List ImageSize
  deriving DecidableEq, Repr

/-- Wrapper dataclass `pano.Panorama`. -/
structure Panorama where
  pano : StreetViewPanorama
  has_extended_info : Bool := true
  has_places : Bool := false
  has_depth : Bool := false
  deriving DecidableEq, Repr

/-- Property `Panorama.has_full_info`. -/
def Panorama.has_full_info (p : Panorama) : Bool :=
  p.has_extended_info && p.has_places

/-- Configuration dataclass `pano_finder.LocationOptions`, with the source
defaults.  Its fields are exactly the five options present in the source:
four tri-state predicates plus the boolean `reject_gen_1`. -/
structure LocationOptions where
  trekker : PredicateOption := .Ignore
  reject_gen_1 : Bool := false
  intersections : PredicateOption := .Ignore
  buildings : PredicateOption := .Ignore
  allow_third_party : PredicateOption := .Reject
  deriving DecidableEq, Repr

/-- All three values of `PredicateOption`. -/
def allPredicateOptions : List PredicateOption :=
  [.Ignore, .Require, .Reject]

/-- Every constructible `LocationOptions` value (3 × 2 × 3 × 3 × 3 = 162). -/
def allLocationOptions : List LocationOptions :=
  allPredicateOptions.flatMap fun t =>
    [false, true].flatMap fun g =>
      allPredicateOptions.flatMap fun i =>
        allPredicateOptions.flatMap fun b =>
          allPredicateOptions.map fun a =>
            { trekker := t, reject_gen_1 := g, intersections := i, buildings := b,
              allow_third_party := a }

/-! ## Predicates over panoramas (`pano.py`) -/

/-- Set `pano.address_component_place_types`. -/
def address_component_place_types : List String :=
  ["Country", "Reservation", "Administrative Area1", "Administrative Area2",
   "Locality", "Sublocality1", "Sublocality2", "Sublocality3", "Neighborhood",
   "Continent", "Archipelago", "Island", "Lake", "Fjord", "Area",
   "Geocoded address", "Intersection"]

/-- Set `pano.not_building_place_types`: the address-component types together
with the further non-building place types. -/
def not_building_place_types : List String :=
  address_component_place_types ++
  ["Crater", "Peninsula", "Volcano", "Water", "Colloquial area",
   "Colloquial city", "Road", "Route", "Trail", "Nature preserve",
   "National park", "National reserve", "Wetland", "Wildlife refuge",
   "Wildlife park", "Bay", "Harbor", "Hiking area", "Mountain peak", "Woods",
   "Beach", "Botanical garden", "Trail head", "Park", "Amusement park",
   "Agricultural production"]

/-- Predicate `pano.is_trekker`: the capture source is one of the known
non-vehicle sources. -/
def is_trekker (pano : Panorama) : Bool :=
  ["scout", "innerspace", "cultural_institute"].contains pano.pano.source

/-- Predicate `pano.is_intersection`: more than one street label, or a single
label with more than two connecting angles. -/
def is_intersection (pano : Panorama) : Bool :=
  match pano.pano.street_names with
  | [] => false
  | first :: rest => decide (rest.length + 1 > 1) || decide (first.angles.length > 2)

/-- Function `pano.max_image_size`: the last entry of `image_sizes`.  The Python
indexing `image_sizes[-1]` raises on an empty list; that partial access is
modelled as `none`. -/
def max_image_size (pano : Panorama) : Option ImageSize :=
  pano.pano.image_sizes.getLast?

/-- Function `pano.camera_gen`: the fixed resolution-to-generation table.
Generation "2 or 3" is the source value 2.5. -/
def camera_gen (pano : Panorama) : Option ℚ :=
  if pano.pano.is_third_party then none
  else
    match max_image_size pano with
    | none => none
    | some size =>
      if size.x = 3328 ∧ size.y = 1664 then some 1
      else if size.x = 13312 ∧ size.y = 6656 then some (5 / 2)
      else if size.x = 16384 ∧ size.y = 8192 then some 4
      else none

/-- Function `pano.has_building`: `none` (unknown) when there is no place data,
otherwise whether any place type is outside the non-building catalogue. -/
def has_building (pano : Panorama) : Option Bool :=
  match pano.pano.places with
  | none => none
  | some [] => none
  | some ps => some (ps.any fun t => !(not_building_place_types.contains t))

/-- Predicate `pano.is_terminus`: exactly one neighbouring link.  Defined in the
source but never referenced by any other module. -/
def is_terminus (pano : Panorama) : Bool :=
  decide (pano.pano.links.length = 1)

/-! ## Acceptance policy (`pano_finder.py`) -/

/-- Helper `pano_finder._check_predicate`: apply a tri-state option to a
predicate. -/
def check_predicate (pano : Panorama) (option : PredicateOption)
    (predicate : Panorama → Bool) : Bool :=
  if option = .Require then predicate pano
  else if option = .Reject then !(predicate pano)
  else true

/-- Helper `pano_finder._check_buildings`: the building tri-state with the
fail-closed treatment of unknown presence. -/
def check_buildings (pano : Panorama) (option : PredicateOption) : Bool :=
  if option = .Ignore then true
  else
    match has_building pano with
    | none => false
    | some building => if option = .Reject then !building else building

/-- Acceptance policy `pano_finder.is_panorama_wanted`.  A `none` options value
is replaced by the default `LocationOptions`, as in the source. -/
def is_panorama_wanted (pano : Panorama) (options : Option LocationOptions) : Bool :=
  let opts := options.getD {}
  if opts.allow_third_party = .Require ∧ pano.pano.is_third_party = false then false
  else if opts.allow_third_party = .Reject ∧ pano.pano.is_third_party = true then false
  else if check_buildings pano opts.buildings = false then false
  else if check_predicate pano opts.trekker is_trekker = false then false
  else if check_predicate pano opts.intersections is_intersection = false then false
  else if opts.reject_gen_1 then
    match camera_gen pano with
    | none => true
    | some gen => decide (gen > 1)
  else true

/-! ## Lookup retry (`pano_finder.find_panorama_backoff`) -/

/-- Outcome of one attempt of the wrapped provider call
`streetview.find_panorama_async`: a response (possibly empty), one of the two
exception types listed in the `backoff.on_exception` decorator, or any other
exception. -/
inductive CallOutcome where
  | success (r : Option StreetViewPanorama)
  | connectionError
  | jsonDecodeError
  | otherError
  deriving DecidableEq, Repr

/-- Observable result of running the decorated `find_panorama_backoff` against a
finite trace of attempt outcomes.  `stillRetrying` means the trace ended while
the decorator was still going to retry. -/
inductive RunResult where
  | returned (p : Option Panorama)
  | raised
  | raisedAfterExhaustion
  | stillRetrying
  deriving DecidableEq, Repr

/-- Whether the `backoff` retry budget is exhausted after `tries` failed
attempts.  A `none` budget (the library default `max_tries=None`) never
exhausts. -/
def retriesExhausted (maxTries : Option Nat) (tries : Nat) : Bool :=
  match maxTries with
  | none => false
  | some m => decide (m ≤ tries)

/-- The retry bound of `find_panorama_backoff`: the decorator
`backoff.on_exception(backoff.expo, (aiohttp.ClientConnectionError,
json.JSONDecodeError))` passes no `max_tries`, so the library default `None`
(retry indefinitely) applies. -/
def findPanoramaBackoffMaxTries : Option Nat := none

/-- Retry driver of the `backoff.on_exception` decorator applied to
`find_panorama_backoff`: walk the attempt trace; a successful response is
wrapped exactly as the source wraps it (`has_extended_info=True`,
`has_places=False`, `has_depth=False`, and `None` passed through); the two
listed transient exception types are retried while the budget allows;
any other exception propagates at once. -/
def backoffRun (maxTries : Option Nat) : List CallOutcome → Nat → RunResult
  | [], _ => .stillRetrying
  | outcome :: rest, tries =>
    match outcome with
    | .success r =>
      .returned (r.map fun sv =>
        { pano := sv, has_extended_info := true, has_places := false, has_depth := false })
    | .connectionError | .jsonDecodeError =>
      if retriesExhausted maxTries (tries + 1) then .raisedAfterExhaustion
      else backoffRun maxTries rest (tries + 1)
    | .otherError => .raised

theorem backoffRun_replicate_connectionError (k t : Nat) :
    backoffRun none (List.replicate k .connectionError) t = .stillRetrying := by
  induction k generalizing t with
  | zero => rfl
  | succ k ih => simpa [List.replicate_succ, backoffRun, retriesExhausted] using ih (t + 1)

theorem backoffRun_replicate_jsonDecodeError (k t : Nat) :
    backoffRun none (List.replicate k .jsonDecodeError) t = .stillRetrying := by
  induction k generalizing t with
  | zero => rfl
  | succ k ih => simpa [List.replicate_succ, backoffRun, retriesExhausted] using ih (t + 1)

theorem backoffRun_replicate_append (k t : Nat) (o : CallOutcome) (rest : List CallOutcome) :
    backoffRun none (List.replicate k .connectionError ++ (o :: rest)) t
      = backoffRun none (o :: rest) (t + k) := by
  induction k generalizing t with
  | zero => rfl
  | succ k ih =>
    rw [List.replicate_succ]
    simpa [backoffRun, retriesExhausted, Nat.add_comm, Nat.add_left_comm] using ih (t + 1)

/-- C2 counterexample input: arbitrarily long all-transient traces under the
configured (absent) bound. -/
theorem c2_counterexample :
    ¬ ∃ bound : Nat, ∀ k : Nat, bound ≤ k →
      backoffRun findPanoramaBackoffMaxTries (List.replicate k CallOutcome.connectionError) 0
        = RunResult.raisedAfterExhaustion := by
  rintro ⟨bound, h⟩
  have h2 := h bound le_rfl
  rw [findPanoramaBackoffMaxTries, backoffRun_replicate_connectionError] at h2
  exact RunResult.noConfusion h2

/-- C2 (amended): `find_panorama_backoff` retries connection errors and
JSON-decode errors with exponential backoff, but with no finite bound on
attempts: the decorator passes no `max_tries`, so any number of consecutive
transient failures leaves it still retrying and a transient failure alone never
propagates; the first successful response is returned (wrapped, `None` passed
through) and the first non-transient exception propagates immediately. -/
theorem c2_unbounded_retry :
    findPanoramaBackoffMaxTries = none ∧
    (∀ k t : Nat,
      backoffRun findPanoramaBackoffMaxTries (List.replicate k CallOutcome.connectionError) t
        = RunResult.stillRetrying) ∧
    (∀ k t : Nat,
      backoffRun findPanoramaBackoffMaxTries (List.replicate k CallOutcome.jsonDecodeError) t
        = RunResult.stillRetrying) ∧
    (∀ (k t : Nat) (r : Option StreetViewPanorama),
      backoffRun findPanoramaBackoffMaxTries
          (List.replicate k CallOutcome.connectionError ++ [CallOutcome.success r]) t
        = RunResult.returned (r.map fun sv =>
            { pano := sv, has_extended_info := true, has_places := false,
              has_depth := false })) ∧
    (∀ k t : Nat,
      backoffRun findPanoramaBackoffMaxTries
          (List.replicate k CallOutcome.connectionError ++ [CallOutcome.otherError]) t
        = RunResult.raised) := by
  refine ⟨rfl, backoffRun_replicate_connectionError, backoffRun_replicate_jsonDecodeError,
    fun k t r => ?_, fun k t => ?_⟩
  · rw [findPanoramaBackoffMaxTries, backoffRun_replicate_append]
    rfl
  · rw [findPanoramaBackoffMaxTries, backoffRun_replicate_append]
    rfl

/-! ## C1: the dead-end / terminus predicate -/

theorem is_panorama_wanted_ignores_links (p : Panorama) (ls : List String)
    (options : Option LocationOptions) :
    is_panorama_wanted { p with pano := { p.pano with links := ls } } options
      = is_panorama_wanted p options := rfl

theorem mem_allLocationOptions (o : LocationOptions) : o ∈ allLocationOptions := by
  obtain ⟨t, g, i, b, a⟩ := o
  cases t <;> cases g <;> cases i <;> cases b <;> cases a <;> decide

/-- A plain official single-link panorama used to probe the policy. -/
def oneLinkPano : Panorama :=
  { pano :=
    { id := "pano-a", lat := 0, lng := 0, is_third_party := false,
      source := "launch", street_names := [], places := some ["Building"],
      links := ["pano-b"], image_sizes := [ImageSize.mk 16384 8192] },
    has_extended_info := true, has_places := true, has_depth := false }

/-- The same panorama with two neighbouring links, hence not a terminus. -/
def twoLinkPano : Panorama :=
  { oneLinkPano with pano := { oneLinkPano.pano with links := ["pano-b", "pano-c"] } }

/-- C1 counterexample: a panorama with two neighbouring links (not a dead end)
is accepted under the default options, and under every one of the 162
constructible `LocationOptions` values the policy gives it exactly the same
verdict as the otherwise identical single-link panorama — no option of
`LocationOptions` requires or rejects termini. -/
theorem c1_counterexample :
    twoLinkPano.pano.links.length = 2 ∧
    is_panorama_wanted twoLinkPano (some {}) = true ∧
    (allLocationOptions.all fun o =>
      is_panorama_wanted twoLinkPano (some o) == is_panorama_wanted oneLinkPano (some o)) = true := by
  refine ⟨rfl, rfl, List.all_eq_true.mpr fun o _ => ?_⟩
  have h : is_panorama_wanted twoLinkPano (some o) = is_panorama_wanted oneLinkPano (some o) :=
    is_panorama_wanted_ignores_links oneLinkPano ["pano-b", "pano-c"] (some o)
  rw [h]
  exact beq_self_eq_true _

/-- C1 (amended): `LocationOptions` carries no dead-end/terminus option — its
fields are the four tri-state predicates (trekker, intersections, buildings,
third party) and the boolean `reject_gen_1`, every combination of which is
enumerated by `allLocationOptions` — and `is_panorama_wanted` is independent of
the panorama's neighbouring links under every options value.  The
single-link test `is_terminus` exists in `pano.py` exactly as the spec
describes it, but no caller consults it. -/
theorem c1_no_terminus_option :
    (∀ p : Panorama, is_terminus p = decide (p.pano.links.length = 1)) ∧
    (∀ o : LocationOptions, o ∈ allLocationOptions) ∧
    (∀ (p : Panorama) (ls : List String) (options : Option LocationOptions),
      is_panorama_wanted { p with pano := { p.pano with links := ls } } options
        = is_panorama_wanted p options) :=
  ⟨fun _ => rfl, mem_allLocationOptions, is_panorama_wanted_ignores_links⟩

/-! ## Two-tier lookup (`pano_finder.find_location`) -/

/-- Two-tier fallback `pano_finder.find_location`.  The two possible provider
round trips are passed in as `official` (what `find_panorama_backoff` with
`search_third_party=False` returns) and `third_party` (what the call with
`search_third_party=True` would return); the second component of the result
records whether that secondary call was actually issued.  As in the source, a
`none` options value leaves `allow_third_party` false. -/
def find_location (official third_party : Option Panorama)
    (options : Option LocationOptions) : Option Panorama × Bool :=
  let allow_third_party : Bool :=
    match options with
    | some opts => decide (opts.allow_third_party ≠ PredicateOption.Reject)
    | none => false
  let officialOk : Bool :=
    match official with
    | none => false
    | some p => is_panorama_wanted p options
  if officialOk then (official, false)
  else if allow_third_party then
    match third_party with
    | none => (none, true)
    | some p => if is_panorama_wanted p options then (some p, true) else (none, true)
  else (none, false)

/-- C5: the official tier is consulted first and, when it yields an acceptable
panorama, no secondary call is made; the secondary (unofficial) call is made
exactly when the official tier found nothing or its panorama was rejected and
the options permit third-party coverage; when the secondary tier also finds
nothing or its panorama is rejected the whole lookup returns `none`; and when
the official tier returns `none` while the options are absent or reject
third-party coverage, the result is `none` with no secondary call. -/
theorem c5_two_tier_fallback (official third_party : Option Panorama)
    (options : Option LocationOptions) :
    (∀ p, official = some p → is_panorama_wanted p options = true →
      find_location official third_party options = (some p, false)) ∧
    ((find_location official third_party options).2 = true ↔
      ((official = none ∨ ∃ p, official = some p ∧ is_panorama_wanted p options = false) ∧
        ∃ opts, options = some opts ∧ opts.allow_third_party ≠ PredicateOption.Reject)) ∧
    (∀ p, third_party = some p → is_panorama_wanted p options = false →
      (find_location official third_party options).1 = none ∨
        (∃ q, official = some q ∧ find_location official third_party options = (some q, false))) ∧
    (third_party = none →
      (find_location official third_party options).1 = none ∨
        (∃ q, official = some q ∧ find_location official third_party options = (some q, false))) ∧
    (official = none →
      (options = none ∨ ∃ opts, options = some opts ∧
        opts.allow_third_party = PredicateOption.Reject) →
      find_location official third_party options = (none, false)) := by
  unfold find_location
  refine ⟨?_, ?_, ?_, ?_, ?_⟩
  · rintro p rfl hw
    simp [hw]
  · rcases official with _ | p
    · rcases options with _ | opts
      · simp
      · by_cases ha : opts.allow_third_party = PredicateOption.Reject
        · simp [ha]
        · rcases third_party with _ | q
          · simp [ha]
          · by_cases hq : is_panorama_wanted q (some opts) <;> simp [ha, hq]
    · by_cases hp : is_panorama_wanted p options
      · simp [hp]
      · rcases options with _ | opts
        · simp [hp]
        · by_cases ha : opts.allow_third_party = PredicateOption.Reject
          · simp [hp, ha]
          · rcases third_party with _ | q
            · simp [hp, ha]
            · by_cases hq : is_panorama_wanted q (some opts) <;> simp [hp, ha, hq]
  · rintro p rfl hw
    rcases official with _ | q
    · rcases options with _ | opts
      · simp
      · by_cases ha : opts.allow_third_party = PredicateOption.Reject <;> simp [ha, hw]
    · by_cases hq : is_panorama_wanted q options
      · exact Or.inr ⟨q, rfl, by simp [hq]⟩
      · rcases options with _ | opts
        · simp [hq]
        · by_cases ha : opts.allow_third_party = PredicateOption.Reject <;> simp [hq, ha, hw]
  · rintro rfl
    rcases official with _ | q
    · rcases options with _ | opts
      · simp
      · by_cases ha : opts.allow_third_party = PredicateOption.Reject <;> simp [ha]
    · by_cases hq : is_panorama_wanted q options
      · exact Or.inr ⟨q, rfl, by simp [hq]⟩
      · rcases options with _ | opts
        · simp [hq]
        · by_cases ha : opts.allow_third_party = PredicateOption.Reject <;> simp [hq, ha]
  · rintro rfl h
    rcases h with rfl | ⟨opts, rfl, ha⟩
    · simp
    · simp [ha]

/-- C5 witness: concrete runs of `find_location`.  An accepted official
panorama is returned with no secondary call; with no official result and the
default (third-party-rejecting) options the lookup returns `none` without the
secondary call. -/
theorem c5_witness :
    find_location (some oneLinkPano) none (some {}) = (some oneLinkPano, false) ∧
    find_location none (some oneLinkPano) (some {}) = (none, false) := by
  constructor
  · exact (c5_two_tier_fallback (some oneLinkPano) none (some {})).1 oneLinkPano rfl (by decide)
  · exact (c5_two_tier_fallback none (some oneLinkPano) (some {})).2.2.2.2 rfl
      (Or.inr ⟨{}, rfl, rfl⟩)

/-! ## C6: the building-presence check -/

/-- Options that exercise only the buildings predicate: everything else ignored
(`allow_third_party` included) and `reject_gen_1` off. -/
def buildingsOnly (o : PredicateOption) : LocationOptions :=
  { buildings := o, allow_third_party := .Ignore }

/-- C6: with the buildings option ignored every panorama passes; with no place
data at all (absent or empty list) presence is unknown and both `Require` and
`Reject` fail; with place data present the panorama counts as having a building
exactly when some place type is outside the fixed non-building catalogue,
`Require` passes exactly on building presence and `Reject` exactly on its
absence; and under options that only constrain buildings the whole acceptance
policy coincides with the building check. -/
theorem c6_building_check :
    (∀ p : Panorama, check_buildings p .Ignore = true) ∧
    (∀ p : Panorama, p.pano.places = none ∨ p.pano.places = some [] →
      has_building p = none ∧
      check_buildings p .Require = false ∧ check_buildings p .Reject = false) ∧
    (∀ (p : Panorama) (ps : List String), p.pano.places = some ps → ps ≠ [] →
      has_building p = some (ps.any fun t => !(not_building_place_types.contains t)) ∧
      check_buildings p .Require = (ps.any fun t => !(not_building_place_types.contains t)) ∧
      check_buildings p .Reject = !(ps.any fun t => !(not_building_place_types.contains t))) ∧
    (∀ (p : Panorama) (o : PredicateOption),
      is_panorama_wanted p (some (buildingsOnly o)) = check_buildings p o) := by
  refine ⟨fun p => rfl, ?_, ?_, ?_⟩
  · intro p h
    have hb : has_building p = none := by
      rcases h with h | h <;> simp [has_building, h]
    exact ⟨hb, by simp [check_buildings, hb], by simp [check_buildings, hb]⟩
  · intro p ps hps hne
    have hb : has_building p = some (ps.any fun t => !(not_building_place_types.contains t)) := by
      rcases ps with _ | ⟨t, ts⟩
      · exact absurd rfl hne
      · simp [has_building, hps]
    refine ⟨hb, by simp [check_buildings, hb], by simp [check_buildings, hb]⟩
  · intro p o
    have h3 : ¬(PredicateOption.Ignore = PredicateOption.Require ∧
        p.pano.is_third_party = false) := by
      rintro ⟨h, -⟩
      exact PredicateOption.noConfusion h
    have h4 : ¬(PredicateOption.Ignore = PredicateOption.Reject ∧
        p.pano.is_third_party = true) := by
      rintro ⟨h, -⟩
      exact PredicateOption.noConfusion h
    cases hcb : check_buildings p o <;>
      simp [is_panorama_wanted, buildingsOnly, check_predicate, h3, h4, hcb]

/-- A panorama with no place data at all. -/
def noPlacesPano : Panorama :=
  { oneLinkPano with pano := { oneLinkPano.pano with places := none } }

/-- A panorama whose only nearby place is a park (a non-building type). -/
def parkPano : Panorama :=
  { oneLinkPano with pano := { oneLinkPano.pano with places := some ["Park"] } }

/-- C6 witness: with no place data both `Require` and `Reject` fail; a panorama
whose only place is a park has no building, so `Reject` passes and `Require`
fails; and the ignored check accepts it. -/
theorem c6_witness :
    check_buildings noPlacesPano PredicateOption.Require = false ∧
    check_buildings noPlacesPano PredicateOption.Reject = false ∧
    check_buildings parkPano PredicateOption.Reject = true ∧
    check_buildings parkPano PredicateOption.Require = false ∧
    is_panorama_wanted parkPano (some (buildingsOnly PredicateOption.Ignore)) = true := by
  have h := c6_building_check
  obtain ⟨-, hreq, hrej⟩ := h.2.1 noPlacesPano (Or.inl rfl)
  obtain ⟨-, hr, hj⟩ := h.2.2.1 parkPano ["Park"] rfl (by decide)
  refine ⟨hreq, hrej, ?_, ?_, ?_⟩
  · rw [hj]
    decide
  · rw [hr]
    decide
  · rw [h.2.2.2 parkPano PredicateOption.Ignore]
    exact h.1 parkPano

/-! ## C7: the imagery-generation rule -/

/-- Options that exercise only the generation rule: `reject_gen_1` on and every
tri-state predicate ignored. -/
def optsRejectGen1 : LocationOptions :=
  { reject_gen_1 := true, allow_third_party := .Ignore }

theorem camera_gen_cases (p : Panorama) :
    camera_gen p = none ∨ camera_gen p = some 1 ∨ camera_gen p = some (5 / 2) ∨
      camera_gen p = some 4 := by
  unfold camera_gen
  by_cases h : p.pano.is_third_party = true
  · simp [h]
  · rw [Bool.not_eq_true] at h
    cases hms : max_image_size p with
    | none => simp [h, hms]
    | some size =>
      simp only [h, hms, Bool.false_eq_true, if_false]
      split_ifs <;> simp

theorem is_panorama_wanted_rejectGen1 (p : Panorama) :
    is_panorama_wanted p (some optsRejectGen1)
      = match camera_gen p with
        | none => true
        | some gen => decide (gen > 1) := by
  simp [is_panorama_wanted, optsRejectGen1, check_predicate, check_buildings]

/-- C7: the generation tier is derived from the last (largest) image-size entry
alone — third-party imagery gives unknown, the three fixed resolutions give
generations 1, 2.5 (the indistinguishable "2 or 3" tier) and 4, anything else
gives unknown, and two panoramas agreeing on third-party flag and image sizes
always get the same tier; with `reject_gen_1` set and all tri-state predicates
ignored, acceptance holds exactly when the derived generation is not 1; and
under any options with `reject_gen_1` set, a generation-1 panorama is always
rejected. -/
theorem c7_generation_rule (p : Panorama) :
    (p.pano.is_third_party = true → camera_gen p = none) ∧
    (∀ s : ImageSize, p.pano.is_third_party = false → max_image_size p = some s →
      camera_gen p =
        (if s.x = 3328 ∧ s.y = 1664 then some 1
         else if s.x = 13312 ∧ s.y = 6656 then some (5 / 2)
         else if s.x = 16384 ∧ s.y = 8192 then some 4
         else none)) ∧
    (∀ q : Panorama, p.pano.is_third_party = q.pano.is_third_party →
      p.pano.image_sizes = q.pano.image_sizes → camera_gen p = camera_gen q) ∧
    (is_panorama_wanted p (some optsRejectGen1) = true ↔ camera_gen p ≠ some 1) ∧
    (∀ o : LocationOptions, o.reject_gen_1 = true → camera_gen p = some 1 →
      is_panorama_wanted p (some o) = false) := by
  refine ⟨?_, ?_, ?_, ?_, ?_⟩
  · intro h
    simp [camera_gen, h]
  · intro s h3 hms
    simp [camera_gen, h3, hms]
  · intro q h1 h2
    unfold camera_gen max_image_size
    rw [h1, h2]
  · rw [is_panorama_wanted_rejectGen1]
    rcases camera_gen_cases p with h | h | h | h <;> rw [h]
    · simp
    · norm_num
    · norm_num
    · norm_num
  · intro o hrg hg
    simp only [is_panorama_wanted, Option.getD_some]
    split_ifs with h1 h2 h3 h4 h5
    · rfl
    · rfl
    · rfl
    · rfl
    · rfl
    · rw [hg]
      norm_num

/-- A generation-1 panorama: official imagery with maximum size 3328 × 1664. -/
def gen1Pano : Panorama :=
  { oneLinkPano with pano := { oneLinkPano.pano with image_sizes := [ImageSize.mk 3328 1664] } }

/-- A third-party panorama, whose generation is unknown. -/
def thirdPartyPano : Panorama :=
  { oneLinkPano with pano := { oneLinkPano.pano with is_third_party := true } }

/-- C7 witness: with `reject_gen_1` set, the generation-1 panorama is rejected
while the generation-4 and third-party (unknown-generation) panoramas pass. -/
theorem c7_witness :
    is_panorama_wanted gen1Pano (some optsRejectGen1) = false ∧
    is_panorama_wanted oneLinkPano (some optsRejectGen1) = true ∧
    is_panorama_wanted thirdPartyPano (some optsRejectGen1) = true := by
  refine ⟨?_, ?_, ?_⟩
  · exact (c7_generation_rule gen1Pano).2.2.2.2 optsRejectGen1 rfl rfl
  · refine (c7_generation_rule oneLinkPano).2.2.2.1.mpr ?_
    have h : camera_gen oneLinkPano = some 4 := rfl
    rw [h]
    simp only [ne_eq, Option.some.injEq]
    norm_num
  · refine (c7_generation_rule thirdPartyPano).2.2.2.1.mpr ?_
    have h : camera_gen thirdPartyPano = none := rfl
    rw [h]
    simp

/-! ## C10: the metadata re-fetch (`pano.ensure_full_pano`) -/

/-- Outcome of one call of `streetview.find_panorama_by_id_async`: a response
(possibly `None`), or one of the `ValueError`/`IndexError` failures that the
source catches around broken depth maps. -/
inductive FetchOutcome where
  | ok (r : Option StreetViewPanorama)
  | valueOrIndexError
  deriving DecidableEq, Repr

/-- Re-fetch `pano.ensure_full_pano`.  `first` is the outcome of the initial
by-id call (made with the requested `download_depth`); `second` is the outcome
of the depthless fallback by-id call that the exception handler may issue.
Returns the resulting panorama — or `Except.error ()` when an exception
propagates to the caller — together with the number of by-id network calls
made. -/
def ensure_full_pano (first second : FetchOutcome) (pano : Panorama)
    (download_depth : Bool) : Except Unit Panorama × Nat :=
  if download_depth = false ∧ pano.has_full_info = true then (.ok pano, 0)
  else
    match first with
    | .ok (some sv) =>
      (.ok { pano := sv, has_extended_info := true, has_places := true,
             has_depth := download_depth }, 1)
    | .ok none => (.ok pano, 1)
    | .valueOrIndexError =>
      if download_depth = false then (.error (), 1)
      else if pano.has_full_info = true then
        (.ok { pano := pano.pano, has_extended_info := true, has_places := true,
               has_depth := download_depth }, 1)
      else
        match second with
        | .ok (some sv) =>
          (.ok { pano := sv, has_extended_info := true, has_places := true,
                 has_depth := download_depth }, 2)
        | .ok none => (.ok pano, 2)
        | .valueOrIndexError => (.error (), 2)

/-- C10: `ensure_full_pano` never turns a missing re-fetch result into a
failure: with full info already present and no depth requested it returns its
input with zero network calls; whenever the initial by-id call answers with no
panorama the original record is returned unchanged; the same holds when the
depthless fallback call answers with no panorama; and an error propagates only
when the initial call itself raised. -/
theorem c10_ensure_full_pano_total (first second : FetchOutcome) (pano : Panorama)
    (download_depth : Bool) :
    (download_depth = false → pano.has_full_info = true →
      ensure_full_pano first second pano download_depth = (.ok pano, 0)) ∧
    (first = .ok none →
      (ensure_full_pano first second pano download_depth).1 = .ok pano) ∧
    (first = .valueOrIndexError → second = .ok none → download_depth = true →
      pano.has_full_info = false →
      (ensure_full_pano first second pano download_depth).1 = .ok pano) ∧
    ((ensure_full_pano first second pano download_depth).1 = .error () →
      first = .valueOrIndexError) := by
  refine ⟨?_, ?_, ?_, ?_⟩
  · rintro rfl hf
    simp [ensure_full_pano, hf]
  · rintro rfl
    by_cases h : download_depth = false ∧ pano.has_full_info = true <;>
      simp [ensure_full_pano, h]
  · rintro rfl rfl rfl hf
    simp [ensure_full_pano, hf]
  · intro herr
    cases first with
    | ok r =>
      by_cases h : download_depth = false ∧ pano.has_full_info = true
      · simp [ensure_full_pano, h] at herr
      · rcases r with _ | sv <;> simp [ensure_full_pano, h] at herr
    | valueOrIndexError => rfl

/-- A panorama that lacks place data, so that `has_full_info` is false. -/
def basicInfoPano : Panorama :=
  { oneLinkPano with has_places := false }

/-- C10 witness: concrete no-result re-fetches.  A full-info record with no
depth requested comes back unchanged with zero calls; an empty first response
falls back to the original record; and after a depth-map failure an empty
fallback response also falls back to the original record. -/
theorem c10_witness :
    ensure_full_pano (.ok none) (.ok none) oneLinkPano false = (.ok oneLinkPano, 0) ∧
    (ensure_full_pano (.ok none) (.ok none) basicInfoPano false).1 = .ok basicInfoPano ∧
    (ensure_full_pano .valueOrIndexError (.ok none) basicInfoPano true).1 = .ok basicInfoPano := by
  refine ⟨?_, ?_, ?_⟩
  · exact (c10_ensure_full_pano_total (.ok none) (.ok none) oneLinkPano false).1 rfl rfl
  · exact (c10_ensure_full_pano_total (.ok none) (.ok none) basicInfoPano false).2.1 rfl
  · exact (c10_ensure_full_pano_total .valueOrIndexError (.ok none) basicInfoPano true).2.2.1
      rfl rfl rfl rfl

/-! ## Balanced-retry loop (`RandomFinder.find_locations_in_geometry`) -/

/-- How the while loop of `RandomFinder.find_locations_in_geometry` ended. -/
inductive LoopExit where
  | reachedN
  | bailedOut
  | fuelOut
  deriving DecidableEq, Repr

/-- The bail-out test `if self.max_retries and (tries > self.max_retries)`:
by Python truthiness a `None` — or zero — budget never bails. -/
def bailOut (max_retries : Option Nat) (tries : Nat) : Bool :=
  match max_retries with
  | none => false
  | some m => if m = 0 then false else decide (m < tries)

/-- The while loop of `RandomFinder.find_locations_in_geometry` (the
`ensure_n` branch).  `sample i c` stands for the candidate points drawn by
`_points_in_geometry` on iteration `i` when asked for `c` points — in the
source this is `random_points_in_poly(polygon, self.n)`, so the loop passes the
finder's fixed `n` as the count on every iteration; `lookup` is the per-point
outcome of `find_location`, making `(sample i n).filterMap lookup` the batch of
accepted panoramas of iteration `i` (`find_locations` yields only the non-empty
outcomes, with no deduplication inside this loop).  `fuel` only bounds the
length of the modelled trace; `fuelOut` marks a trace cut off by the model,
never an exit of the source loop.  Returns the accumulated panorama list, the
count argument passed to the sampler on each iteration, and how the loop
ended. -/
def ensureNAux {α β : Type} (n : Nat) (max_retries : Option Nat)
    (sample : Nat → Nat → List α) (lookup : α → Option β) :
    Nat → Nat → List β → List β × List Nat × LoopExit
  | 0, tries, total =>
    if n ≤ total.length then (total, [], .reachedN)
    else if bailOut max_retries (tries + 1) then (total, [], .bailedOut)
    else (total, [], .fuelOut)
  | fuel + 1, tries, total =>
    if n ≤ total.length then (total, [], .reachedN)
    else if bailOut max_retries (tries + 1) then (total, [], .bailedOut)
    else
      let batch := (sample (tries + 1) n).filterMap lookup
      let r := ensureNAux n max_retries sample lookup fuel (tries + 1) (total ++ batch)
      (r.1, n :: r.2.1, r.2.2)

/-- Observable outcome of one run of the balanced-retry loop: what the
generator yields (`total_panos[: self.n]`), the full accumulation, the count
requested from the sampler on each iteration, and how the loop ended. -/
structure EnsureNRun (β : Type) where
  yielded : List β
  total : List β
  counts : List Nat
  ended : LoopExit
  deriving DecidableEq, Repr

/-- Run the loop from its initial state (`tries = 0`, `total_panos = []`) and
yield the first `n` accumulated panoramas, as the source does after the loop. -/
def ensureNRun {α β : Type} (n : Nat) (max_retries : Option Nat)
    (sample : Nat → Nat → List α) (lookup : α → Option β) (fuel : Nat) :
    EnsureNRun β :=
  let r := ensureNAux n max_retries sample lookup fuel 0 []
  { yielded := r.1.take n, total := r.1, counts := r.2.1, ended := r.2.2 }

theorem ensureNAux_ne_fuelOut {α β : Type} (n m : Nat) (sample : Nat → Nat → List α)
    (lookup : α → Option β) (hm : 1 ≤ m) :
    ∀ (fuel tries : Nat) (total : List β), m ≤ tries + fuel →
      (ensureNAux n (some m) sample lookup fuel tries total).2.2 ≠ LoopExit.fuelOut := by
  intro fuel
  induction fuel with
  | zero =>
    intro tries total h
    by_cases hr : n ≤ total.length
    · simp [ensureNAux, hr]
    · have hm0 : ¬ m = 0 := by omega
      have hlt : m < tries + 1 := by omega
      simp [ensureNAux, hr, bailOut, hm0, hlt]
  | succ fuel ih =>
    intro tries total h
    by_cases hr : n ≤ total.length
    · simp [ensureNAux, hr]
    · by_cases hb : bailOut (some m) (tries + 1) = true
      · simp [ensureNAux, hr, hb]
      · rw [Bool.not_eq_true] at hb
        simpa [ensureNAux, hr, hb] using
          ih (tries + 1) (total ++ (sample (tries + 1) n).filterMap lookup) (by omega)

theorem ensureNAux_reachedN_iff {α β : Type} (n : Nat) (mr : Option Nat)
    (sample : Nat → Nat → List α) (lookup : α → Option β) :
    ∀ (fuel tries : Nat) (total : List β),
      ((ensureNAux n mr sample lookup fuel tries total).2.2 = LoopExit.reachedN ↔
        n ≤ (ensureNAux n mr sample lookup fuel tries total).1.length) := by
  intro fuel
  induction fuel with
  | zero =>
    intro tries total
    by_cases hr : n ≤ total.length
    · simp [ensureNAux, hr]
    · by_cases hb : bailOut mr (tries + 1) = true
      · simp [ensureNAux, hr, hb]
      · rw [Bool.not_eq_true] at hb
        simp [ensureNAux, hr, hb]
  | succ fuel ih =>
    intro tries total
    by_cases hr : n ≤ total.length
    · simp [ensureNAux, hr]
    · by_cases hb : bailOut mr (tries + 1) = true
      · simp [ensureNAux, hr, hb]
      · rw [Bool.not_eq_true] at hb
        simpa [ensureNAux, hr, hb] using
          ih (tries + 1) (total ++ (sample (tries + 1) n).filterMap lookup)

theorem ensureNAux_counts_le {α β : Type} (n m : Nat) (sample : Nat → Nat → List α)
    (lookup : α → Option β) (hm : 1 ≤ m) :
    ∀ (fuel tries : Nat) (total : List β),
      (ensureNAux n (some m) sample lookup fuel tries total).2.1.length ≤ m - tries := by
  intro fuel
  induction fuel with
  | zero =>
    intro tries total
    by_cases hr : n ≤ total.length
    · simp [ensureNAux, hr]
    · by_cases hb : bailOut (some m) (tries + 1) = true
      · simp [ensureNAux, hr, hb]
      · rw [Bool.not_eq_true] at hb
        simp [ensureNAux, hr, hb]
  | succ fuel ih =>
    intro tries total
    by_cases hr : n ≤ total.length
    · simp [ensureNAux, hr]
    · by_cases hb : bailOut (some m) (tries + 1) = true
      · simp [ensureNAux, hr, hb]
      · have hle : tries + 1 ≤ m := by
          have hm0 : ¬ m = 0 := by omega
          simp [bailOut, hm0] at hb
          omega
        have hrec := ih (tries + 1) (total ++ (sample (tries + 1) n).filterMap lookup)
        have hm0 : ¬ m = 0 := by omega
        have hnb : ¬ bailOut (some m) (tries + 1) = true := by
          simp [bailOut, hm0]
          omega
        simp [ensureNAux, hr, hnb]
        omega

theorem ensureNAux_counts_all {α β : Type} (n : Nat) (mr : Option Nat)
    (sample : Nat → Nat → List α) (lookup : α → Option β) :
    ∀ (fuel tries : Nat) (total : List β) (c : Nat),
      c ∈ (ensureNAux n mr sample lookup fuel tries total).2.1 → c = n := by
  intro fuel
  induction fuel with
  | zero =>
    intro tries total c hc
    by_cases hr : n ≤ total.length
    · simp [ensureNAux, hr] at hc
    · by_cases hb : bailOut mr (tries + 1) = true
      · simp [ensureNAux, hr, hb] at hc
      · rw [Bool.not_eq_true] at hb
        simp [ensureNAux, hr, hb] at hc
  | succ fuel ih =>
    intro tries total c hc
    by_cases hr : n ≤ total.length
    · simp [ensureNAux, hr] at hc
    · by_cases hb : bailOut mr (tries + 1) = true
      · simp [ensureNAux, hr, hb] at hc
      · simp [ensureNAux, hr, hb, List.mem_cons] at hc
        rcases hc with rfl | hc
        · rfl
        · exact ih (tries + 1) _ c hc

theorem ensureNAux_total_append {α β : Type} (n : Nat) (mr : Option Nat)
    (sample : Nat → Nat → List α) (lookup : α → Option β) :
    ∀ (fuel tries : Nat) (total : List β),
      ∃ ext, (ensureNAux n mr sample lookup fuel tries total).1 = total ++ ext := by
  intro fuel
  induction fuel with
  | zero =>
    intro tries total
    by_cases hr : n ≤ total.length
    · exact ⟨[], by simp [ensureNAux, hr]⟩
    · by_cases hb : bailOut mr (tries + 1) = true
      · exact ⟨[], by simp [ensureNAux, hr, hb]⟩
      · rw [Bool.not_eq_true] at hb
        exact ⟨[], by simp [ensureNAux, hr, hb]⟩
  | succ fuel ih =>
    intro tries total
    by_cases hr : n ≤ total.length
    · exact ⟨[], by simp [ensureNAux, hr]⟩
    · by_cases hb : bailOut mr (tries + 1) = true
      · exact ⟨[], by simp [ensureNAux, hr, hb]⟩
      · obtain ⟨ext, hext⟩ := ih (tries + 1) (total ++ (sample (tries + 1) n).filterMap lookup)
        refine ⟨(sample (tries + 1) n).filterMap lookup ++ ext, ?_⟩
        simp [ensureNAux, hr, hb, hext, List.append_assoc]

/-- C3 (amended): on every iteration of the balanced-retry loop the sampler is
asked for the finder's constant `n` candidate points — the count never shrinks
to the remaining shortfall, because `RandomFinder.points_in_polygon` always
passes `self.n` — and each iteration's newly accepted panoramas are appended to
the accumulated results. -/
theorem c3_fresh_batches_constant_n {α β : Type} (n fuel : Nat) (mr : Option Nat)
    (sample : Nat → Nat → List α) (lookup : α → Option β) :
    (∀ c ∈ (ensureNRun n mr sample lookup fuel).counts, c = n) ∧
    (∀ (fuel2 tries : Nat) (total : List β), ∃ ext,
      (ensureNAux n mr sample lookup fuel2 tries total).1 = total ++ ext) :=
  ⟨fun c hc => ensureNAux_counts_all n mr sample lookup fuel 0 [] c hc,
   fun fuel2 tries total => ensureNAux_total_append n mr sample lookup fuel2 tries total⟩

/-- The lookup used in the C3 counterexample: of the candidate points 0 and 1,
only point 0 yields a panorama. -/
def c3lookup : Nat → Option Nat := fun a => if a = 0 then some 0 else none

/-- The sampler used in the C3 counterexample: iteration-independent, returns
as many points as requested. -/
def c3sample : Nat → Nat → List Nat := fun _ c => List.range c

/-- C3 counterexample: with `n = 2`, each batch of two candidates yields
exactly one accepted panorama, so after the first iteration the shortfall is
`2 - 1 = 1`; yet the second iteration again requests 2 (= `n`) candidate
points from the sampler, not 1 — the recorded count trace is `[2, 2]`, where
the claim predicts `[2, 1]`. -/
theorem c3_counterexample :
    ((List.range 2).filterMap c3lookup).length = 1 ∧
    (ensureNRun 2 (some 50) c3sample c3lookup 10).counts = [2, 2] ∧
    (ensureNRun 2 (some 50) c3sample c3lookup 10).total = [0, 0] := by
  refine ⟨by decide, by decide, by decide⟩

/-- C3 witness: a concrete three-point run in which every requested batch count
equals `n = 3`, and a concrete accumulator that is extended, never rewritten. -/
theorem c3_witness :
    (3 = 3) ∧
    ∃ ext, (ensureNAux 3 none c3sample (fun a : Nat => some a) 2 0 [7]).1 = [7] ++ ext :=
  ⟨(c3_fresh_batches_constant_n 3 2 none c3sample (fun a : Nat => some a)).1 3 (by decide),
   (c3_fresh_batches_constant_n 3 0 none c3sample (fun a : Nat => some a)).2 2 0 [7]⟩

/-- C8: the balanced-retry loop yields at most `n` results, namely the first
`n` of the accumulation in acceptance order; with a positive retry budget `m`
(and a modelled trace at least that long) the loop never needs more than the
budget — it ends either by reaching `n` or by bailing out, the successful exit
happening exactly when the accumulated count reached `n`, and the bail-out
path still yields the partial accumulation (the run result is total, there is
no failure outcome); at most `m` iterations draw a batch. -/
theorem c8_loop_bounds {α β : Type} (n m fuel : Nat) (sample : Nat → Nat → List α)
    (lookup : α → Option β) (hm : 1 ≤ m) (hf : m ≤ fuel) :
    (ensureNRun n (some m) sample lookup fuel).yielded.length ≤ n ∧
    (ensureNRun n (some m) sample lookup fuel).yielded
      = (ensureNRun n (some m) sample lookup fuel).total.take n ∧
    (ensureNRun n (some m) sample lookup fuel).ended ≠ LoopExit.fuelOut ∧
    ((ensureNRun n (some m) sample lookup fuel).ended = LoopExit.reachedN ↔
      n ≤ (ensureNRun n (some m) sample lookup fuel).total.length) ∧
    (ensureNRun n (some m) sample lookup fuel).counts.length ≤ m := by
  refine ⟨?_, rfl, ?_, ?_, ?_⟩
  · simp only [ensureNRun, List.length_take]
    exact Nat.min_le_left _ _
  · exact ensureNAux_ne_fuelOut n m sample lookup hm fuel 0 [] (by omega)
  · exact ensureNAux_reachedN_iff n (some m) sample lookup fuel 0 []
  · simpa using ensureNAux_counts_le n m sample lookup hm fuel 0 []

/-- C8 witness: a concrete run (`n = 1`, budget 1, a sampler that never finds
anything) that bails out with the empty partial result: at most one result is
yielded, the trace is not cut off by fuel, and at most one batch was drawn. -/
theorem c8_witness :
    (ensureNRun 1 (some 1) (fun _ _ => ([] : List Nat)) (fun a : Nat => some a) 1).yielded.length
        ≤ 1 ∧
    (ensureNRun 1 (some 1) (fun _ _ => ([] : List Nat)) (fun a : Nat => some a) 1).ended
        ≠ LoopExit.fuelOut ∧
    (ensureNRun 1 (some 1) (fun _ _ => ([] : List Nat)) (fun a : Nat => some a) 1).counts.length
        ≤ 1 :=
  ⟨(c8_loop_bounds 1 1 1 (fun _ _ => ([] : List Nat)) (fun a : Nat => some a) le_rfl le_rfl).1,
   (c8_loop_bounds 1 1 1 (fun _ _ => ([] : List Nat)) (fun a : Nat => some a) le_rfl
      le_rfl).2.2.1,
   (c8_loop_bounds 1 1 1 (fun _ _ => ([] : List Nat)) (fun a : Nat => some a) le_rfl
      le_rfl).2.2.2.2⟩

/-! ## Per-geometry deduplication (`gdf_finder.find_locations_in_geodataframe`) -/

/-- The fields of `coordinate.Coordinate` that the per-row collection reads or
carries: the map-location payload and the `pano_id` used as the deduplication
key (`zoom`, always `None` here, and the free-form `extra` mapping are
omitted). -/
structure Coordinate where
  lat : ℚ
  lng : ℚ
  pano_id : Option String
  heading : Option ℚ
  pitch : Option ℚ
  country_code : Option String
  deriving DecidableEq, Repr

/-- Insertion into a Python dict rendered as an association list in insertion
order: an existing key keeps its position and receives the new value, a new
key is appended at the end. -/
def dictInsert {K V : Type} [DecidableEq K] (k : K) (v : V) :
    List (K × V) → List (K × V)
  | [] => [(k, v)]
  | (k2, v2) :: rest =>
    if k2 = k then (k2, v) :: rest else (k2, v2) :: dictInsert k v rest

/-- Key lookup in the association list. -/
def dictFind {K V : Type} [DecidableEq K] (k : K) : List (K × V) → Option V
  | [] => none
  | (k2, v2) :: rest => if k2 = k then some v2 else dictFind k rest

/-- The dict comprehension of `find_locations_in_geodataframe`,
`{location.pano_id: location for location in found}`, over the coordinates
found for one row in discovery order. -/
def pano_id_dict (found : List Coordinate) : List (Option String × Coordinate) :=
  found.foldl (fun d c => dictInsert c.pano_id c d) []

/-- The collection step `locations.values()`: the per-row deduplicated
coordinate list. -/
def dedup_locations (found : List Coordinate) : List Coordinate :=
  (pano_id_dict found).map Prod.snd

theorem pano_id_dict_append (l : List Coordinate) (c : Coordinate) :
    pano_id_dict (l ++ [c]) = dictInsert c.pano_id c (pano_id_dict l) := by
  simp [pano_id_dict, List.foldl_append]

theorem dictFind_dictInsert_self {K V : Type} [DecidableEq K] (k : K) (v : V)
    (d : List (K × V)) : dictFind k (dictInsert k v d) = some v := by
  induction d with
  | nil => simp [dictInsert, dictFind]
  | cons e rest ih =>
    obtain ⟨k2, v2⟩ := e
    by_cases h : k2 = k
    · simp [dictInsert, dictFind, h]
    · simp [dictInsert, dictFind, h, ih]

theorem dictFind_dictInsert_ne {K V : Type} [DecidableEq K] (k kk : K) (v : V)
    (d : List (K × V)) (h : kk ≠ k) :
    dictFind k (dictInsert kk v d) = dictFind k d := by
  induction d with
  | nil => simp [dictInsert, dictFind, h]
  | cons e rest ih =>
    obtain ⟨k2, v2⟩ := e
    by_cases h2 : k2 = kk
    · subst h2
      simp [dictInsert, dictFind, h]
    · have hks : ¬ k = kk := fun hh => h hh.symm
      by_cases h3 : k2 = k <;> simp [dictInsert, dictFind, h2, h3, ih, hks]

theorem dictInsert_keys {K V : Type} [DecidableEq K] (k : K) (v : V)
    (d : List (K × V)) :
    (dictInsert k v d).map Prod.fst
      = if k ∈ d.map Prod.fst then d.map Prod.fst else d.map Prod.fst ++ [k] := by
  induction d with
  | nil => simp [dictInsert]
  | cons e rest ih =>
    obtain ⟨k2, v2⟩ := e
    by_cases h : k2 = k
    · subst h
      simp [dictInsert]
    · simp only [dictInsert, if_neg h, List.map_cons]
      rw [ih]
      have hks : ¬ k = k2 := fun hh => h hh.symm
      by_cases h2 : k ∈ rest.map Prod.fst
      · simp [h2, hks]
      · simp [h2, hks]

theorem dictInsert_keys_pairwise {K V : Type} [DecidableEq K] (k : K) (v : V)
    (d : List (K × V)) (hd : (d.map Prod.fst).Pairwise (· ≠ ·)) :
    ((dictInsert k v d).map Prod.fst).Pairwise (· ≠ ·) := by
  rw [dictInsert_keys]
  by_cases h : k ∈ d.map Prod.fst
  · simpa [h] using hd
  · simp only [h, if_false]
    rw [List.pairwise_append]
    refine ⟨hd, List.pairwise_singleton _ _, fun a ha b hb => ?_⟩
    simp only [List.mem_singleton] at hb
    subst hb
    exact fun hak => h (hak ▸ ha)

theorem dictInsert_entry_mem {K V : Type} [DecidableEq K] (k : K) (v : V)
    (d : List (K × V)) : ∀ e ∈ dictInsert k v d, e = (k, v) ∨ e ∈ d := by
  induction d with
  | nil =>
    intro e he
    simp only [dictInsert, List.mem_singleton] at he
    exact Or.inl he
  | cons e2 rest ih =>
    obtain ⟨k2, v2⟩ := e2
    intro e he
    by_cases h : k2 = k
    · subst h
      have hd : dictInsert k2 v ((k2, v2) :: rest) = (k2, v) :: rest := by
        simp [dictInsert]
      rw [hd, List.mem_cons] at he
      rcases he with rfl | he
      · exact Or.inl rfl
      · exact Or.inr (List.mem_cons_of_mem _ he)
    · simp only [dictInsert, if_neg h, List.mem_cons] at he
      rcases he with rfl | he
      · exact Or.inr (List.mem_cons_self _ _)
      · rcases ih e he with h2 | h2
        · exact Or.inl h2
        · exact Or.inr (List.mem_cons_of_mem _ h2)

theorem pano_id_dict_keys_pairwise (l : List Coordinate) :
    ((pano_id_dict l).map Prod.fst).Pairwise (· ≠ ·) := by
  induction l using List.reverseRecOn with
  | nil => simp [pano_id_dict]
  | append_singleton l c ih =>
    rw [pano_id_dict_append]
    exact dictInsert_keys_pairwise _ _ _ ih

theorem pano_id_dict_entries (l : List Coordinate) :
    ∀ e ∈ pano_id_dict l, e.2.pano_id = e.1 := by
  induction l using List.reverseRecOn with
  | nil =>
    intro e he
    simp [pano_id_dict] at he
  | append_singleton l c ih =>
    intro e he
    rw [pano_id_dict_append] at he
    rcases dictInsert_entry_mem _ _ _ e he with rfl | h
    · rfl
    · exact ih e h

theorem pano_id_dict_find (l : List Coordinate) (k : Option String) :
    dictFind k (pano_id_dict l)
      = (l.filter fun c => decide (c.pano_id = k)).getLast? := by
  induction l using List.reverseRecOn with
  | nil => rfl
  | append_singleton l c ih =>
    rw [pano_id_dict_append, List.filter_append]
    by_cases h : c.pano_id = k
    · rw [show dictInsert c.pano_id c (pano_id_dict l) = dictInsert k c (pano_id_dict l) by
        rw [h]]
      rw [dictFind_dictInsert_self]
      simp [h, List.getLast?_concat]
    · rw [dictFind_dictInsert_ne _ _ _ _ h, ih]
      simp [h]

theorem dedup_locations_subset (l : List Coordinate) :
    ∀ c ∈ dedup_locations l, c ∈ l := by
  induction l using List.reverseRecOn with
  | nil =>
    intro c hc
    simp [dedup_locations, pano_id_dict] at hc
  | append_singleton l c0 ih =>
    intro c hc
    simp only [dedup_locations, List.mem_map] at hc
    obtain ⟨e, he, rfl⟩ := hc
    rw [pano_id_dict_append] at he
    rcases dictInsert_entry_mem _ _ _ e he with rfl | h
    · exact List.mem_append_right _ (List.mem_singleton_self _)
    · exact List.mem_append_left _ (ih _ (List.mem_map_of_mem _ h))

/-- C4 (amended): per geometry, the collected set never holds two coordinates
with the same panorama id and only holds coordinates that were discovered; but
when the same panorama id is seen twice, the entry kept is the last-seen
occurrence (the dict comprehension overwrites the value at the already-present
key), not the first-seen one. -/
theorem c4_dedup_no_duplicates (l : List Coordinate) :
    ((dedup_locations l).map Coordinate.pano_id).Pairwise (· ≠ ·) ∧
    (∀ k : Option String,
      dictFind k (pano_id_dict l)
        = (l.filter fun c => decide (c.pano_id = k)).getLast?) ∧
    (∀ c ∈ dedup_locations l, c ∈ l) := by
  refine ⟨?_, pano_id_dict_find l, dedup_locations_subset l⟩
  have hmap : (dedup_locations l).map Coordinate.pano_id = (pano_id_dict l).map Prod.fst := by
    rw [dedup_locations, List.map_map]
    exact List.map_congr_left fun e he => pano_id_dict_entries l e he
  rw [hmap]
  exact pano_id_dict_keys_pairwise l

/-- First-discovered coordinate of the duplicated panorama id. -/
def c4first : Coordinate :=
  { lat := 1, lng := 10, pano_id := some "dup", heading := none, pitch := none,
    country_code := some "AU" }

/-- Second-discovered coordinate of the same panorama id. -/
def c4second : Coordinate :=
  { lat := 2, lng := 20, pano_id := some "dup", heading := none, pitch := none,
    country_code := some "AU" }

/-- C4 counterexample: two distinct coordinates share the panorama id; the
collected set keeps the second-seen one, not the first-seen one as claimed. -/
theorem c4_counterexample :
    c4first.pano_id = c4second.pano_id ∧
    dedup_locations [c4first, c4second] = [c4second] ∧
    c4first ≠ c4second := by
  refine ⟨rfl, rfl, ?_⟩
  intro h
  have h2 : (1 : ℚ) = 2 := congrArg Coordinate.lat h
  norm_num at h2

/-- C4 witness: on the concrete duplicated pair, the dict holds the last
occurrence under the shared key, and the kept coordinate was discovered. -/
theorem c4_witness :
    dictFind (some "dup") (pano_id_dict [c4first, c4second])
      = ([c4first, c4second].filter fun c => decide (c.pano_id = some "dup")).getLast? ∧
    c4second ∈ [c4first, c4second] :=
  ⟨(c4_dedup_no_duplicates [c4first, c4second]).2.1 (some "dup"),
   (c4_dedup_no_duplicates [c4first, c4second]).2.2 c4second (List.Mem.head _)⟩

/-! ## Geometry sampling (`shape_utils.py`) -/

/-- A point of the plane; the floats of the source are idealised as exact
rationals. -/
structure Pt where
  x : ℚ
  y : ℚ
  deriving DecidableEq, Repr

/-- The edges of a ring given by its vertex list: consecutive vertices,
cyclically closed. -/
def ringEdges (ring : List Pt) : List (Pt × Pt) :=
  match ring with
  | [] => []
  | p :: rest => (p :: rest).zip (rest ++ [p])

/-- One step of the even-odd ray-casting rule: whether the horizontal ray from
`p` crosses the edge from `a` to `b` (the standard crossing test with linear
interpolation of the crossing abscissa; the division is total on ℚ and only
reached when the y spans differ, so the denominator is then nonzero). -/
def edgeCrosses (p a b : Pt) : Bool :=
  (decide (a.y > p.y) != decide (b.y > p.y)) &&
    decide (p.x < a.x + (b.x - a.x) * (p.y - a.y) / (b.y - a.y))

/-- Even-odd point-in-ring test: an odd number of edge crossings. -/
def pointInRing (ring : List Pt) (p : Pt) : Bool :=
  (ringEdges ring).foldl (fun acc e => acc != edgeCrosses p e.1 e.2) false

/-- A shapely polygon: an exterior ring and a list of interior rings, the
holes. -/
structure PolygonQ where
  exterior : List Pt
  holes : List (List Pt)
  deriving DecidableEq, Repr

/-- Shapely polygon membership: inside the exterior ring and inside no hole.
This models both the `points.intersection(projected)` filter of
`get_polygon_lattice` and the `contains_properly` test of
`random_point_in_poly`; the two shapely predicates differ only on ring
boundaries, which the even-odd rule does not distinguish. -/
def polygonContains (poly : PolygonQ) (p : Pt) : Bool :=
  pointInRing poly.exterior p && poly.holes.all fun h => !(pointInRing h p)

/-- The `projected.bounds` of the source: the envelope over all coordinates of
the polygon, as (min_x, min_y, max_x, max_y); the degenerate vertex-free
polygon gets the zero box. -/
def polygonBounds (poly : PolygonQ) : ℚ × ℚ × ℚ × ℚ :=
  match poly.exterior ++ poly.holes.flatten with
  | [] => (0, 0, 0, 0)
  | p :: rest =>
    (rest.foldl (fun m q => min m q.x) p.x,
     rest.foldl (fun m q => min m q.y) p.y,
     rest.foldl (fun m q => max m q.x) p.x,
     rest.foldl (fun m q => max m q.y) p.y)

/-- The grid coordinates `numpy.arange(lo, hi, step)` for a positive step:
`lo, lo + step, …` strictly below `hi`. -/
def arangeQ (lo hi step : ℚ) : List ℚ :=
  if step ≤ 0 then []
  else (List.range (Int.toNat ⌈(hi - lo) / step⌉)).map fun i => lo + i * step

/-- The candidate grid of `get_polygon_lattice`: the mesh of the arange rows
over the polygon bounds, flattened in the row-major order of `numpy.meshgrid`
followed by `zip(x.flat, y.flat)`. -/
def latticeGrid (poly : PolygonQ) (resolution : ℚ) : List Pt :=
  let b := polygonBounds poly
  let xs := arangeQ b.1 b.2.2.1 resolution
  let ys := arangeQ b.2.1 b.2.2.2 resolution
  ys.flatMap fun y => xs.map fun x => { x := x, y := y }

/-- Grid sampler `shape_utils.get_polygon_lattice`.  The pyproj transformation
pair (`wgs84_to_mercator` and its inverse) is an external collaborator, passed
in as `proj` and `unproj` and applied pointwise exactly as
`shapely.ops.transform` applies it; with `reproject := false` the polygon is
used as is.  The `points.intersection(projected)` step keeps the grid points
the (projected) polygon contains; the source's case split of the result into
empty, single-point and multi-point containers only changes the container type
and is collapsed into the returned list. -/
def get_polygon_lattice (proj unproj : Pt → Pt) (reproject : Bool)
    (poly : PolygonQ) (resolution : ℚ) : List Pt :=
  let projected : PolygonQ :=
    if reproject then
      { exterior := poly.exterior.map proj, holes := poly.holes.map (List.map proj) }
    else poly
  let kept := (latticeGrid projected resolution).filter (polygonContains projected)
  if reproject then kept.map unproj else kept

/-- Rejection sampler `shape_utils.random_point_in_poly`.  `draws` is the
stream of uniform bounding-box draws (`random_point_in_bbox` over the numpy
generator, an external collaborator), consumed from index `k`; the source
loops until a draw lands properly inside the polygon, so the model carries
fuel and returns `none` when the modelled trace ends before a draw is
accepted. -/
def random_point_in_poly (poly : PolygonQ) (draws : Nat → Pt) :
    Nat → Nat → Option Pt
  | _, 0 => none
  | k, fuel + 1 =>
    if polygonContains poly (draws k) then some (draws k)
    else random_point_in_poly poly draws (k + 1) fuel

theorem polygonContains_spec (poly : PolygonQ) (p : Pt)
    (h : polygonContains poly p = true) :
    pointInRing poly.exterior p = true ∧ ∀ hh ∈ poly.holes, pointInRing hh p = false := by
  simp only [polygonContains, Bool.and_eq_true, List.all_eq_true] at h
  refine ⟨h.1, fun hh hmem => ?_⟩
  simpa using h.2 hh hmem

/-- C9: every candidate point produced by the lattice sampler — under a
projection pair that is a section and reflects the even-odd ring test, which
holds in particular for the identity used when `reproject` is off — and every
point accepted by the rejection sampler lies inside the polygon's exterior
ring and outside every one of its holes. -/
theorem c9_sampled_points_in_polygon :
    (∀ (proj unproj : Pt → Pt) (reproject : Bool) (poly : PolygonQ) (resolution : ℚ),
      (∀ q : Pt, proj (unproj q) = q) →
      (∀ (ring : List Pt) (p : Pt),
        pointInRing (ring.map proj) (proj p) = pointInRing ring p) →
      ∀ q ∈ get_polygon_lattice proj unproj reproject poly resolution,
        pointInRing poly.exterior q = true ∧
          ∀ h ∈ poly.holes, pointInRing h q = false) ∧
    (∀ (poly : PolygonQ) (draws : Nat → Pt) (k fuel : Nat) (q : Pt),
      random_point_in_poly poly draws k fuel = some q →
        pointInRing poly.exterior q = true ∧
          ∀ h ∈ poly.holes, pointInRing h q = false) := by
  constructor
  · intro proj unproj reproject poly resolution hinv hpres q hq
    cases reproject with
    | false =>
      simp only [get_polygon_lattice, Bool.false_eq_true, if_false, List.mem_filter] at hq
      exact polygonContains_spec poly q hq.2
    | true =>
      simp only [get_polygon_lattice, if_true, List.mem_map, List.mem_filter] at hq
      obtain ⟨g, ⟨-, hc⟩, rfl⟩ := hq
      obtain ⟨hext, hholes⟩ := polygonContains_spec _ g hc
      constructor
      · have h2 := hpres poly.exterior (unproj g)
        rw [hinv g] at h2
        rw [← h2]
        exact hext
      · intro h hh
        have h2 := hpres h (unproj g)
        rw [hinv g] at h2
        rw [← h2]
        exact hholes (h.map proj) (List.mem_map_of_mem _ hh)
  · intro poly draws k fuel
    induction fuel generalizing k with
    | zero =>
      intro q hq
      exact absurd hq (by simp [random_point_in_poly])
    | succ fuel ih =>
      intro q hq
      by_cases hc : polygonContains poly (draws k) = true
      · have hdq : draws k = q := by
          simpa [random_point_in_poly, hc] using hq
        exact hdq ▸ polygonContains_spec poly (draws k) hc
      · rw [Bool.not_eq_true] at hc
        simp only [random_point_in_poly, hc, Bool.false_eq_true, if_false] at hq
        exact ih (k + 1) q hq

/-- The hole of the witness polygon: the unit square from (1,1) to (2,2). -/
def witnessHole : List Pt :=
  [⟨1, 1⟩, ⟨2, 1⟩, ⟨2, 2⟩, ⟨1, 2⟩]

/-- Witness polygon: the square from (0,0) to (4,4) with `witnessHole` cut
out. -/
def witnessPoly : PolygonQ :=
  { exterior := [⟨0, 0⟩, ⟨4, 0⟩, ⟨4, 4⟩, ⟨0, 4⟩], holes := [witnessHole] }

theorem witnessPoly_contains : polygonContains witnessPoly ⟨3, 3⟩ = true := by
  norm_num [polygonContains, pointInRing, ringEdges, edgeCrosses, witnessPoly, witnessHole]

theorem witnessPoly_bounds : polygonBounds witnessPoly = (0, 0, 4, 4) := by
  norm_num [polygonBounds, witnessPoly, witnessHole, min_def, max_def]

theorem witness_arange : (3 : ℚ) ∈ arangeQ 0 4 1 := by
  have h0 : ¬ ((1 : ℚ) ≤ 0) := by norm_num
  have h4 : Int.toNat ⌈((4 : ℚ) - 0) / 1⌉ = 4 := by
    have : ⌈((4 : ℚ) - 0) / 1⌉ = 4 := by norm_num
    rw [this]
    rfl
  simp only [arangeQ, h0, if_false, h4, List.mem_map]
  refine ⟨3, by decide, by norm_num⟩

theorem witness_grid : (⟨3, 3⟩ : Pt) ∈ latticeGrid witnessPoly 1 := by
  simp only [latticeGrid, witnessPoly_bounds]
  refine List.mem_flatMap.mpr ⟨3, witness_arange, List.mem_map.mpr ⟨3, witness_arange, rfl⟩⟩

/-- C9 witness: in the square-with-hole polygon, the concrete lattice point
(3,3) and the accepted rejection-sampling draw (3,3) are inside the exterior
ring and outside the hole. -/
theorem c9_witness :
    ((⟨3, 3⟩ : Pt) ∈ get_polygon_lattice id id false witnessPoly 1) ∧
    (random_point_in_poly witnessPoly (fun _ => ⟨3, 3⟩) 0 1 = some ⟨3, 3⟩) ∧
    pointInRing witnessPoly.exterior ⟨3, 3⟩ = true ∧
    pointInRing witnessHole ⟨3, 3⟩ = false := by
  have hmem : (⟨3, 3⟩ : Pt) ∈ get_polygon_lattice id id false witnessPoly 1 :=
    List.mem_filter.mpr ⟨witness_grid, witnessPoly_contains⟩
  have hdraw : random_point_in_poly witnessPoly (fun _ => ⟨3, 3⟩) 0 1 = some ⟨3, 3⟩ := by
    simp [random_point_in_poly, witnessPoly_contains]
  have h1 := c9_sampled_points_in_polygon.1 id id false witnessPoly 1 (fun q => rfl)
    (by simp) ⟨3, 3⟩ hmem
  exact ⟨hmem, hdraw, h1.1, h1.2 witnessHole (List.Mem.head _)⟩
